import Mathlib

/-!
Verification of the safety-metrics score computation and spatial-aggregation
engine of `src/src/lib/safety-metrics/city_safety_processor.py`.

The Python code is shallowly embedded below.  Machine floats are modelled as
exact rationals (`ℚ`) where the code only performs field arithmetic, and as
real numbers (`ℝ`) where the code calls `math.exp`.  Python `dict`s are
modelled as association lists that preserve insertion order, and Python's
stable `list.sort` is modelled as a stable insertion sort.
-/

/-- Embedding of `calculate_weighted_incidents` (city_safety_processor.py,
lines 1314-1323).  `neighbor_incident_map` is the Python dict from neighbor
block id to that neighbor's same-metric direct incident count; only its
values are summed.  `pop_density_proxy` is accepted but unused, exactly as in
the source. -/
def calculate_weighted_incidents (direct_incidents : ℤ)
    (neighbor_incident_map : List (String × ℤ)) (pop_density_proxy : ℚ) : ℚ :=
  let neighbor_incidents_total : ℤ := (neighbor_incident_map.map Prod.snd).sum
  let NEIGHBOR_WEIGHT : ℚ := 0.25
  (direct_incidents : ℚ) + NEIGHBOR_WEIGHT * (neighbor_incidents_total : ℚ)

/-- Embedding of `calculate_safety_score` (city_safety_processor.py, lines
1326-1346): `max(0.0, 10.0 * exp(-K * max(0.0, weighted_incidents)))` with
`DECAY_CONSTANT_K = 0.01`. -/
noncomputable def calculate_safety_score (weighted_incidents : ℝ) : ℝ :=
  let DECAY_CONSTANT_K : ℝ := 0.01
  let safe_weighted_incidents : ℝ := max 0 weighted_incidents
  let score : ℝ := 10 * Real.exp (-DECAY_CONSTANT_K * safe_weighted_incidents)
  max 0 score

/-- Embedding of the population density proxy (city_safety_processor.py, lines
1201-1204): `population / housing_units if housing_units > 0 else 0`, where
both fields have been coerced to integers. -/
def population_density_proxy (population housing_units : ℤ) : ℚ :=
  if housing_units > 0 then (population : ℚ) / (housing_units : ℚ) else 0

/-- Embedding of the incidents-per-1000 computation (city_safety_processor.py,
line 305): `(direct_incidents / population) * 1000 if population > 0 else
0.0`. -/
def incidents_per_1000 (direct_incidents population : ℤ) : ℚ :=
  if population > 0 then (direct_incidents : ℚ) / (population : ℚ) * 1000 else 0

/-- Embedding of the risk-bucket selection in `get_risk_description`
(city_safety_processor.py, lines 351-355). -/
def risk_level (score : ℚ) : String :=
  if score ≥ 8 then "Very Low Risk"
  else if score ≥ 6 then "Low Risk"
  else if score ≥ 4 then "Moderate Risk"
  else if score ≥ 2 then "High Risk"
  else "Very High Risk"

/-- Embedding of the stable-id input string (city_safety_processor.py, line
315): `f"{target_city_id}:{current_block_pk}:{metric_type}"`. -/
def metric_id_string (target_city_id : ℤ) (current_block_pk metric_type : String) :
    String :=
  toString target_city_id ++ ":" ++ current_block_pk ++ ":" ++ metric_type

/-- The persistent metric record built by `calculate_metrics`
(city_safety_processor.py, lines 320-339). -/
structure MetricRecord where
  id : String
  city_id : ℤ
  block_group_id : String
  latitude : ℚ
  longitude : ℚ
  geom : String
  metric_type : String
  score : ℝ
  question : String
  description : String
  direct_incidents : ℤ
  weighted_incidents : ℚ
  population_density : ℚ
  incidents_per_1000 : ℚ
  created_at : String
  expires_at : String

/-- Embedding of the metric-record construction (city_safety_processor.py,
lines 313-339).  `uuid5` abstracts Python's `uuid.uuid5(uuid.NAMESPACE_DNS, ·)`,
which is a pure deterministic function of its name string; the record id is
`uuid5` applied to `metric_id_string` of the (city, block, metric-type)
triple, and no other field enters the id. -/
def build_metric_record (uuid5 : String → String) (target_city_id : ℤ)
    (current_block_pk metric_type : String) (latitude longitude : ℚ)
    (score : ℝ) (question description : String) (direct_incidents : ℤ)
    (weighted_incidents population_density incidents_per_1000_val : ℚ)
    (created_at expires_at : String) : MetricRecord :=
  { id := uuid5 (metric_id_string target_city_id current_block_pk metric_type)
    city_id := target_city_id
    block_group_id := current_block_pk
    latitude := latitude
    longitude := longitude
    geom := "SRID=4326;POINT(" ++ toString longitude ++ " " ++ toString latitude ++ ")"
    metric_type := metric_type
    score := score
    question := question
    description := description
    direct_incidents := direct_incidents
    weighted_incidents := weighted_incidents
    population_density := population_density
    incidents_per_1000 := incidents_per_1000_val
    created_at := created_at
    expires_at := expires_at }

/-- A nearby safety-metric candidate for one accommodation, as assembled in
`update_accommodation_safety_scores` (city_safety_processor.py, lines
519-527): the metric row's type, its (possibly null) score, the Haversine
distance from the accommodation (computed by `calculate_distance_km` before
this stage and taken as an input here), and the metric's census-block primary
key. -/
structure Candidate where
  metric_type : String
  score : Option ℚ
  distance : ℚ
  census_block_pk : String
deriving DecidableEq

/-- The per-accommodation update dict built at city_safety_processor.py, lines
658-664. -/
structure ScoreUpdate where
  id : String
  overall_safety_score : Option ℤ
  census_block_id : Option String
  city_id : ℤ
  safety_metric_types_found : Option ℕ
deriving DecidableEq

/-- Distance cutoff `MAX_METRIC_DISTANCE_KM = 4.0` (city_safety_processor.py,
line 390). -/
def MAX_METRIC_DISTANCE_KM : ℚ := 4

/-- Stable insertion of a candidate into a list sorted by ascending distance;
an element is placed after every existing element with distance ≤ its own.
This models one step of Python's stable `list.sort(key=lambda x:
x['distance'])` (city_safety_processor.py, line 530). -/
def insert_by_dist (x : Candidate) : List Candidate → List Candidate
  | [] => [x]
  | y :: ys => if y.distance ≤ x.distance then y :: insert_by_dist x ys
               else x :: y :: ys

/-- Stable sort by ascending distance, modelling Python's stable `list.sort`
with a distance key. -/
def sort_by_dist (l : List Candidate) : List Candidate :=
  l.foldl (fun acc x => insert_by_dist x acc) []

/-- Embedding of the construction of `valid_metrics_with_dist`
(city_safety_processor.py, lines 522-530): keep the candidates within
`MAX_METRIC_DISTANCE_KM`, then sort them by ascending Haversine distance. -/
def valid_metrics_with_dist (cands : List Candidate) : List Candidate :=
  sort_by_dist (cands.filter (fun c => decide (c.distance ≤ MAX_METRIC_DISTANCE_KM)))

/-- One step of the grouping loop at city_safety_processor.py, lines 564-574:
append the candidate to its metric type's bucket, creating the bucket at the
end on first occurrence (Python dicts preserve key insertion order). -/
def insert_grouped (groups : List (String × List Candidate)) (c : Candidate) :
    List (String × List Candidate) :=
  match groups with
  | [] => [(c.metric_type, [c])]
  | (t, l) :: rest =>
    if t = c.metric_type then (t, l ++ [c]) :: rest
    else (t, l) :: insert_grouped rest c

/-- Embedding of `metrics_by_type_in_radius` (city_safety_processor.py, lines
564-574). -/
def metrics_by_type_in_radius (l : List Candidate) : List (String × List Candidate) :=
  l.foldl insert_grouped []

/-- Embedding of `min(metrics_list, key=lambda x: x['distance'])`
(city_safety_processor.py, line 585); like Python's `min`, the first element
attaining the minimum is kept. -/
def min_by_distance (l : List Candidate) : Option Candidate :=
  match l with
  | [] => none
  | x :: xs => some (xs.foldl (fun best c => if c.distance < best.distance then c else best) x)

/-- Embedding of `closest_metrics_by_type` (city_safety_processor.py, lines
581-586): for each metric type in radius, the minimum-distance candidate. -/
def closest_metrics_by_type (l : List Candidate) : List (String × Candidate) :=
  (metrics_by_type_in_radius l).filterMap
    (fun p => (min_by_distance p.2).map (fun c => (p.1, c)))

/-- The `valid_scores` list (city_safety_processor.py, line 607): the non-null
scores of the per-type closest candidates. -/
def selected_scores (cands : List Candidate) : List ℚ :=
  (closest_metrics_by_type (valid_metrics_with_dist cands)).filterMap
    (fun p => p.2.score)

/-- Python 3's `round` to an integer: round half to even (used at
city_safety_processor.py, line 613 via `int(round(average_score * 10))`). -/
def round_half_even (q : ℚ) : ℤ :=
  let f := ⌊q⌋
  let frac := q - (f : ℚ)
  if frac < 1/2 then f
  else if 1/2 < frac then f + 1
  else if f % 2 = 0 then f else f + 1

/-- Embedding of steps 5-7 of `update_accommodation_safety_scores`
(city_safety_processor.py, lines 508-664) for a single accommodation, taking
as input the nearby metric candidates with their precomputed Haversine
distances: radius filter and distance sort, block inference from the closest
candidate, per-type closest selection, averaging of the non-null selected
scores scaled to 0-100, and assembly of the update record (a found-type count
of 0 is encoded as null). -/
def compute_update (acc_id : String) (target_city_id : ℤ)
    (cands : List Candidate) : ScoreUpdate :=
  let vm := valid_metrics_with_dist cands
  let inferred_block_id := vm.head?.map (fun c => c.census_block_pk)
  let valid_scores := selected_scores cands
  let num_found_types := valid_scores.length
  let overall_score : Option ℤ :=
    if valid_scores.isEmpty then none
    else some (round_half_even (valid_scores.sum / (num_found_types : ℚ) * 10))
  { id := acc_id
    overall_safety_score := overall_score
    census_block_id := inferred_block_id
    city_id := target_city_id
    safety_metric_types_found :=
      if 0 < num_found_types then some num_found_types else none }

/-- Decidable range check used to state claim C5: the candidate's score is
present and lies in [0, 10]. -/
def score_in_range (o : Option ℚ) : Bool :=
  match o with
  | none => false
  | some s => decide (0 ≤ s) && decide (s ≤ 10)

/-- Model of Python's `str.zfill(width)` on a character list: pad with zeros
on the left up to `width`, keeping a leading sign character in front (used at
city_safety_processor.py, line 1006). -/
def zfill_list (width : Nat) (l : List Char) : List Char :=
  if width ≤ l.length then l
  else
    match l with
    | c :: rest =>
      if c = '-' || c = '+' then c :: (List.replicate (width - l.length) '0' ++ rest)
      else List.replicate (width - l.length) '0' ++ (c :: rest)
    | [] => List.replicate width '0'

/-- Model of Python's `str.isdigit` on a character list: non-empty and all
decimal digits. -/
def all_digits (l : List Char) : Bool :=
  !l.isEmpty && l.all Char.isDigit

/-- Model of Python's `int` on a string of decimal digits. -/
def digitsToNat (l : List Char) : Nat :=
  l.foldl (fun acc c => 10 * acc + (c.toNat - 48)) 0

/-- Model of Python's `str.split(sep)` for a one-character separator:
`splitOnChar c l` returns the (possibly empty) fragments of `l` between
occurrences of `c`. -/
def splitOnChar (c : Char) : List Char → List (List Char)
  | [] => [[]]
  | x :: xs =>
    let r := splitOnChar c xs
    if x = c then [] :: r
    else
      match r with
      | [] => [[x]]
      | y :: ys => (x :: y) :: ys

/-- A 1-or-2-character run of decimal digits, as accepted by the `%H`, `%M`
and `%S` directives of Python's `datetime.strptime`. -/
def digits12 (l : List Char) : Bool :=
  decide (1 ≤ l.length) && decide (l.length ≤ 2) && l.all Char.isDigit

/-- Model of `datetime.strptime(time_str, "%H:%M:%S")` succeeding
(city_safety_processor.py, line 1024), applied to the colon-separated parts:
hour in 0-23, minute in 0-59, second in 0-61 (strptime accepts leap
seconds), each written with one or two digits. -/
def strptime_hms_valid (parts : List (List Char)) : Bool :=
  match parts with
  | [h, m, s] =>
    digits12 h && decide (digitsToNat h ≤ 23) &&
    digits12 m && decide (digitsToNat m ≤ 59) &&
    digits12 s && decide (digitsToNat s ≤ 61)
  | _ => false

/-- Writes a natural number below 100 with exactly two decimal digits, as
Python's `f"{n:02d}"` does (city_safety_processor.py, line 1014). -/
def fmt2 (n : Nat) : String :=
  String.mk [Nat.digitChar (n / 10), Nat.digitChar (n % 10)]

/-- Embedding of the time-of-day portion of `parse_datetime`
(city_safety_processor.py, lines 997-1038), for sources with separate date
and time fields (i.e. the non-"uip8-fykc" path).  `none` models a missing or
null `time_str`.  For the LAPD dataset "2nrs-mtv8" the HHMM encoding is used:
the string is zero-filled to four characters, an hour of 24 or more is
clamped to 23:59, and any non-4-digit input falls back to the 12:00:00
default.  For every other dataset an HH:MM:SS encoding is expected: a string
of three colon-separated parts starting with "24:" becomes 23:59:59, an
otherwise `strptime`-valid string is kept, and everything else falls back to
the 12:00:00 default. -/
def parse_time_str (dataset_id : String) (time_str_input : Option String) : String :=
  match time_str_input with
  | none => "12:00:00"
  | some time_str =>
    if dataset_id = "2nrs-mtv8" then
      let t := zfill_list 4 time_str.toList
      if t.length = 4 ∧ all_digits t = true then
        let hour := digitsToNat (t.take 2)
        let minute := digitsToNat (t.drop 2)
        if 24 ≤ hour then "23:59:00"
        else fmt2 hour ++ ":" ++ fmt2 minute ++ ":00"
      else "12:00:00"
    else
      let parts := splitOnChar ':' time_str.toList
      if parts.length = 3 then
        if time_str.toList.take 3 = ['2', '4', ':'] then "23:59:59"
        else if strptime_hms_valid parts then time_str
        else "12:00:00"
      else "12:00:00"

/-- Result of one region-resolution RPC chunk (city_safety_processor.py,
lines 1083-1107): `none` models every failure path (an exception, an API
error response, or a response without list data), `some data` a response
whose entries are either a matched block (`some`) or a null match (`none`).
An empty successful list is falsy in Python and also takes the placeholder
path, exactly as in the source. -/
def rpc_chunk_result {α β : Type} (coord_chunk : List α)
    (outcome : Option (List (Option β))) : List (Option β) :=
  match outcome with
  | some data => if data.isEmpty then List.replicate coord_chunk.length none else data
  | none => List.replicate coord_chunk.length none

/-- Embedding of the chunked RPC loop that builds `all_block_data`
(city_safety_processor.py, lines 1071-1107): the per-chunk results are
concatenated in chunk order; `rpc` gives each chunk's outcome. -/
def all_block_data {α β : Type} (chunks : List (List α))
    (rpc : List α → Option (List (Option β))) : List (Option β) :=
  match chunks with
  | [] => []
  | c :: cs => rpc_chunk_result c (rpc c) ++ all_block_data cs rpc

/-- Marks each input coordinate (in chunk order) with `true` when its chunk's
RPC call failed; used to state which result positions belong to failed
chunks. -/
def chunk_flags {α β : Type} (chunks : List (List α))
    (rpc : List α → Option (List (Option β))) : List Bool :=
  match chunks with
  | [] => []
  | c :: cs => List.replicate c.length (rpc c).isNone ++ chunk_flags cs rpc

/-- Per-chunk resolver contract assumed by the spec for successful calls: one
result per coordinate of the chunk, each a real (non-null) match. -/
def chunk_ok {α β : Type} (c : List α) (o : Option (List (Option β))) : Bool :=
  match o with
  | none => true
  | some data => (data.length == c.length) && data.all Option.isSome

/-- Concrete resolver used to exercise `all_block_data`: it succeeds on the
chunk `[1]` and raises on every other chunk. -/
def rpc_example : List ℕ → Option (List (Option ℕ)) :=
  fun c => if c = [1] then some [some 7] else none

/-- Concrete resolver whose successful response maps its only coordinate to a
null match. -/
def rpc_null_match : List ℕ → Option (List (Option ℕ)) :=
  fun _ => some [none]

/-- Concrete resolver whose successful response has more entries than the
chunk has coordinates. -/
def rpc_extra_rows : List ℕ → Option (List (Option ℕ)) :=
  fun _ => some [some 1, some 2]

theorem calculate_safety_score_eq (w : ℝ) (hw : 0 ≤ w) :
    calculate_safety_score w = 10 * Real.exp (-(0.01) * w) := by
  have h1 : max (0:ℝ) w = w := max_eq_right hw
  have h2 : (0:ℝ) ≤ 10 * Real.exp (-(0.01) * w) := by positivity
  simp only [calculate_safety_score, h1, max_eq_right h2]

theorem calculate_safety_score_le_ten (w : ℝ) : calculate_safety_score w ≤ 10 := by
  show max 0 (10 * Real.exp (-(0.01 : ℝ) * max 0 w)) ≤ 10
  have h0 : (0:ℝ) ≤ max 0 w := le_max_left 0 w
  have hexp : Real.exp (-(0.01 : ℝ) * max 0 w) ≤ 1 := by
    rw [show (1:ℝ) = Real.exp 0 from (Real.exp_zero).symm]
    exact Real.exp_le_exp.mpr (by nlinarith)
  have hs : (10:ℝ) * Real.exp (-(0.01 : ℝ) * max 0 w) ≤ 10 := by nlinarith
  exact max_le (by norm_num) hs

/-- C1: for every weighted incident count w ≥ 0, `calculate_safety_score`
returns exactly `10 * exp (-0.01 * w)`; the score is in [0, 10], it is
non-increasing in the weighted count, and it equals exactly 10 at w = 0. -/
theorem C1_safety_score_spec (w₁ w₂ : ℝ) (h₁ : 0 ≤ w₁) (h₁₂ : w₁ ≤ w₂) :
    calculate_safety_score w₁ = 10 * Real.exp (-(0.01) * w₁) ∧
    0 ≤ calculate_safety_score w₁ ∧
    calculate_safety_score w₁ ≤ 10 ∧
    calculate_safety_score w₂ ≤ calculate_safety_score w₁ ∧
    calculate_safety_score 0 = 10 := by
  have h₂ : (0:ℝ) ≤ w₂ := le_trans h₁ h₁₂
  refine ⟨calculate_safety_score_eq w₁ h₁, ?_, calculate_safety_score_le_ten w₁, ?_, ?_⟩
  · rw [calculate_safety_score_eq w₁ h₁]; positivity
  · rw [calculate_safety_score_eq w₁ h₁, calculate_safety_score_eq w₂ h₂]
    have hm := Real.exp_le_exp.mpr (show -(0.01) * w₂ ≤ -(0.01) * w₁ by nlinarith)
    nlinarith [Real.exp_pos (-(0.01) * w₂)]
  · rw [calculate_safety_score_eq 0 le_rfl]
    norm_num

/-- Witness for C1 at the concrete pair (0, 1). -/
theorem C1_safety_score_witness :
    calculate_safety_score 0 = 10 * Real.exp (-(0.01) * 0) ∧
    0 ≤ calculate_safety_score 0 ∧
    calculate_safety_score 0 ≤ 10 ∧
    calculate_safety_score 1 ≤ calculate_safety_score 0 ∧
    calculate_safety_score 0 = 10 :=
  C1_safety_score_spec 0 1 le_rfl zero_le_one

/-- C2: for a non-negative direct incident count and non-negative neighbor
counts, `calculate_weighted_incidents` returns `direct + 0.25 * (sum of the
neighbor counts)`, and the weighted count dominates the direct count, which
is non-negative. -/
theorem C2_weighted_incidents_spec (d : ℤ) (m : List (String × ℤ)) (pd : ℚ)
    (hd : 0 ≤ d) (hm : ∀ p ∈ m, 0 ≤ p.2) :
    calculate_weighted_incidents d m pd
      = (d : ℚ) + 0.25 * (((m.map Prod.snd).sum : ℤ) : ℚ) ∧
    (d : ℚ) ≤ calculate_weighted_incidents d m pd ∧
    0 ≤ (d : ℚ) := by
  have hsum : (0:ℤ) ≤ (m.map Prod.snd).sum := by
    refine List.sum_nonneg ?_
    intro x hx
    obtain ⟨p, hp, rfl⟩ := List.mem_map.mp hx
    exact hm p hp
  refine ⟨rfl, ?_, by exact_mod_cast hd⟩
  show (d : ℚ) ≤ (d : ℚ) + 0.25 * (((m.map Prod.snd).sum : ℤ) : ℚ)
  have hq : (0:ℚ) ≤ (((m.map Prod.snd).sum : ℤ) : ℚ) := by exact_mod_cast hsum
  nlinarith

/-- Witness for C2 at direct count 2 and one neighbor with 4 incidents. -/
theorem C2_weighted_incidents_witness :
    calculate_weighted_incidents 2 [("a", 4)] 0
      = ((2:ℤ) : ℚ) + 0.25 * ((([(("a":String), (4:ℤ))].map Prod.snd).sum : ℤ) : ℚ) ∧
    ((2:ℤ) : ℚ) ≤ calculate_weighted_incidents 2 [("a", 4)] 0 ∧
    0 ≤ ((2:ℤ) : ℚ) :=
  C2_weighted_incidents_spec 2 [("a", 4)] 0 (by decide) (by decide)

/-- C3: the metric record id is a pure function of the (city id, census
block key, metric type) triple: it equals the deterministic hash of
`metric_id_string` of the triple, so building the record twice from the same
triple yields identical ids whatever the remaining fields (coordinates,
score, counts, timestamps) are. -/
theorem C3_metric_id_pure (u : String → String) (city : ℤ) (pk mt : String)
    (lat₁ lon₁ : ℚ) (s₁ : ℝ) (q₁ dsc₁ : String) (di₁ : ℤ) (wi₁ pd₁ ip₁ : ℚ)
    (ca₁ ea₁ : String)
    (lat₂ lon₂ : ℚ) (s₂ : ℝ) (q₂ dsc₂ : String) (di₂ : ℤ) (wi₂ pd₂ ip₂ : ℚ)
    (ca₂ ea₂ : String) :
    (build_metric_record u city pk mt lat₁ lon₁ s₁ q₁ dsc₁ di₁ wi₁ pd₁ ip₁ ca₁ ea₁).id
      = u (metric_id_string city pk mt) ∧
    (build_metric_record u city pk mt lat₁ lon₁ s₁ q₁ dsc₁ di₁ wi₁ pd₁ ip₁ ca₁ ea₁).id
      = (build_metric_record u city pk mt lat₂ lon₂ s₂ q₂ dsc₂ di₂ wi₂ pd₂ ip₂ ca₂ ea₂).id :=
  ⟨rfl, rfl⟩

/-- C7: the risk bucket used by `get_risk_description` is "Very Low Risk"
for score ≥ 8, "Low Risk" for 6 ≤ score < 8, "Moderate Risk" for
4 ≤ score < 6, "High Risk" for 2 ≤ score < 4 and "Very High Risk" for
score < 2. -/
theorem C7_risk_bucket_spec (s : ℚ) :
    (8 ≤ s → risk_level s = "Very Low Risk") ∧
    (6 ≤ s → s < 8 → risk_level s = "Low Risk") ∧
    (4 ≤ s → s < 6 → risk_level s = "Moderate Risk") ∧
    (2 ≤ s → s < 4 → risk_level s = "High Risk") ∧
    (s < 2 → risk_level s = "Very High Risk") := by
  refine ⟨fun h => ?_, fun h1 h2 => ?_, fun h1 h2 => ?_, fun h1 h2 => ?_, fun h => ?_⟩
  · simp only [risk_level]
    rw [if_pos h]
  · simp only [risk_level]
    rw [if_neg (not_le.mpr (by linarith)), if_pos h1]
  · simp only [risk_level]
    rw [if_neg (not_le.mpr (by linarith)), if_neg (not_le.mpr (by linarith)), if_pos h1]
  · simp only [risk_level]
    rw [if_neg (not_le.mpr (by linarith)), if_neg (not_le.mpr (by linarith)),
      if_neg (not_le.mpr (by linarith)), if_pos h1]
  · simp only [risk_level]
    rw [if_neg (not_le.mpr (by linarith)), if_neg (not_le.mpr (by linarith)),
      if_neg (not_le.mpr (by linarith)), if_neg (not_le.mpr (by linarith))]

/-- Witness for C7 at one concrete score per bucket. -/
theorem C7_risk_bucket_witness :
    risk_level 9 = "Very Low Risk" ∧ risk_level 7 = "Low Risk" ∧
    risk_level 5 = "Moderate Risk" ∧ risk_level 3 = "High Risk" ∧
    risk_level 1 = "Very High Risk" :=
  ⟨(C7_risk_bucket_spec 9).1 (by decide),
   (C7_risk_bucket_spec 7).2.1 (by decide) (by decide),
   (C7_risk_bucket_spec 5).2.2.1 (by decide) (by decide),
   (C7_risk_bucket_spec 3).2.2.2.1 (by decide) (by decide),
   (C7_risk_bucket_spec 1).2.2.2.2 (by decide)⟩

/-- C8: the worked example: one incident in a block with population 1000 and
housing_units 500 and no neighbor incidents yields density_proxy = 2,
weighted_incident_count = 1, score = 10·exp(−0.01) and
incidents_per_1000 = 1. -/
theorem C8_worked_example :
    population_density_proxy 1000 500 = 2 ∧
    calculate_weighted_incidents 1 [] (population_density_proxy 1000 500) = 1 ∧
    calculate_safety_score
        ((calculate_weighted_incidents 1 [] (population_density_proxy 1000 500) : ℚ) : ℝ)
      = 10 * Real.exp (-(0.01)) ∧
    incidents_per_1000 1 1000 = 1 := by
  have hw : calculate_weighted_incidents 1 [] (population_density_proxy 1000 500) = 1 := by
    unfold calculate_weighted_incidents
    norm_num
  refine ⟨?_, hw, ?_, ?_⟩
  · unfold population_density_proxy
    norm_num
  · rw [hw]
    have h1 : (((1:ℚ)) : ℝ) = 1 := by norm_num
    rw [h1, calculate_safety_score_eq 1 zero_le_one]
    norm_num
  · unfold incidents_per_1000
    norm_num

/-- C10: `calculate_weighted_incidents` does not depend on its
`pop_density_proxy` argument: any two density values give the same weighted
incident count. -/
theorem C10_density_noninterference (d : ℤ) (m : List (String × ℤ)) (pd₁ pd₂ : ℚ) :
    calculate_weighted_incidents d m pd₁ = calculate_weighted_incidents d m pd₂ :=
  rfl

/-- C4: in every emitted accommodation update, the overall safety score is
null exactly when the found-metric-type count is null or zero (the code
encodes a count of 0 as null). -/
theorem C4_null_score_iff_no_types (acc_id : String) (city : ℤ) (cands : List Candidate) :
    ((compute_update acc_id city cands).overall_safety_score = none ↔
      ((compute_update acc_id city cands).safety_metric_types_found = none ∨
        (compute_update acc_id city cands).safety_metric_types_found = some 0)) := by
  cases h : selected_scores cands with
  | nil => simp [compute_update, h]
  | cons a t => simp [compute_update, h]

theorem round_half_even_nonneg {q : ℚ} (h : 0 ≤ q) : 0 ≤ round_half_even q := by
  simp only [round_half_even]
  have hf : (0:ℤ) ≤ ⌊q⌋ := Int.floor_nonneg.mpr h
  split_ifs <;> omega

theorem round_half_even_le {q : ℚ} {B : ℤ} (h : q ≤ (B : ℚ)) : round_half_even q ≤ B := by
  simp only [round_half_even]
  have hfl : ⌊q⌋ ≤ B := by
    have := Int.floor_le_floor (α := ℚ) h
    rwa [Int.floor_intCast] at this
  have hfq : (⌊q⌋ : ℚ) ≤ q := Int.floor_le q
  split_ifs with h1 h2 h3
  · exact hfl
  · push_neg at h1
    have hlt : (⌊q⌋ : ℚ) < (B : ℚ) := by linarith
    have : ⌊q⌋ < B := by exact_mod_cast hlt
    omega
  · exact hfl
  · push_neg at h1
    have hlt : (⌊q⌋ : ℚ) < (B : ℚ) := by linarith
    have : ⌊q⌋ < B := by exact_mod_cast hlt
    omega

theorem mean_scaled_bounds (l : List ℚ) (hne : l ≠ [])
    (hb : ∀ x ∈ l, 0 ≤ x ∧ x ≤ 10) :
    0 ≤ 10 * (l.sum / (l.length : ℚ)) ∧ 10 * (l.sum / (l.length : ℚ)) ≤ 100 := by
  have hlen : 0 < (l.length : ℚ) := by
    have : 0 < l.length := List.length_pos.mpr hne
    exact_mod_cast this
  have h0 : (0:ℚ) ≤ l.sum := List.sum_nonneg (fun x hx => (hb x hx).1)
  have h10 : l.sum ≤ (l.length : ℚ) * 10 := by
    have := List.sum_le_card_nsmul l 10 (fun x hx => (hb x hx).2)
    simpa [nsmul_eq_mul] using this
  constructor
  · exact mul_nonneg (by norm_num) (div_nonneg h0 hlen.le)
  · have hq : l.sum / (l.length : ℚ) ≤ 10 := by
      rw [div_le_iff₀ hlen]
      linarith
    linarith

theorem selected_scores_bounds {cands : List Candidate}
    (hrange : ∀ p ∈ closest_metrics_by_type (valid_metrics_with_dist cands),
        score_in_range p.2.score = true) :
    ∀ x ∈ selected_scores cands, 0 ≤ x ∧ x ≤ 10 := by
  intro x hx
  obtain ⟨p, hp, hscore⟩ := List.mem_filterMap.mp hx
  have hr := hrange p hp
  rw [hscore] at hr
  simpa [score_in_range] using hr

theorem selected_scores_ne_nil {cands : List Candidate}
    (hne : (closest_metrics_by_type (valid_metrics_with_dist cands)).isEmpty = false)
    (hrange : ∀ p ∈ closest_metrics_by_type (valid_metrics_with_dist cands),
        score_in_range p.2.score = true) :
    selected_scores cands ≠ [] := by
  cases h : closest_metrics_by_type (valid_metrics_with_dist cands) with
  | nil => rw [h] at hne; simp at hne
  | cons p rest =>
    have hp := hrange p (by rw [h]; exact List.mem_cons_self p rest)
    cases hs : p.2.score with
    | none => rw [hs] at hp; simp [score_in_range] at hp
    | some s =>
      intro hcontra
      have hmem : s ∈ selected_scores cands := by
        unfold selected_scores
        rw [h]
        exact List.mem_filterMap.mpr ⟨p, List.mem_cons_self p rest, hs⟩
      rw [hcontra] at hmem
      exact absurd hmem (List.not_mem_nil s)

/-- C5: when at least one metric type is found within the distance cutoff and
every selected per-type score is present and lies in [0, 10], the emitted
overall safety score equals `round(10 × mean(selected scores))` (Python's
banker's rounding) and lies in [0, 100]. -/
theorem C5_overall_score_spec (acc_id : String) (city : ℤ) (cands : List Candidate)
    (hne : (closest_metrics_by_type (valid_metrics_with_dist cands)).isEmpty = false)
    (hrange : ∀ p ∈ closest_metrics_by_type (valid_metrics_with_dist cands),
        score_in_range p.2.score = true) :
    (compute_update acc_id city cands).overall_safety_score
      = some (round_half_even
          (10 * ((selected_scores cands).sum / ((selected_scores cands).length : ℚ)))) ∧
    0 ≤ round_half_even
        (10 * ((selected_scores cands).sum / ((selected_scores cands).length : ℚ))) ∧
    round_half_even
        (10 * ((selected_scores cands).sum / ((selected_scores cands).length : ℚ))) ≤ 100 := by
  have hne2 := selected_scores_ne_nil hne hrange
  have hb := selected_scores_bounds hrange
  have hbounds := mean_scaled_bounds (selected_scores cands) hne2 hb
  have hempty : (selected_scores cands).isEmpty = false := by
    cases h : selected_scores cands with
    | nil => exact absurd h hne2
    | cons a t => rfl
  refine ⟨?_, round_half_even_nonneg hbounds.1, round_half_even_le ?_⟩
  · simp only [compute_update, hempty, Bool.false_eq_true, if_false]
    rw [mul_comm]
  · exact_mod_cast hbounds.2

/-- Witness for C5 at one concrete candidate of score 8 at distance 1 km. -/
theorem C5_overall_score_witness :
    (compute_update "acc-1" 1 [⟨"night", some 8, 1, "b1"⟩]).overall_safety_score
      = some (round_half_even
          (10 * ((selected_scores [⟨"night", some 8, 1, "b1"⟩]).sum
            / ((selected_scores [⟨"night", some 8, 1, "b1"⟩]).length : ℚ)))) ∧
    0 ≤ round_half_even
        (10 * ((selected_scores [⟨"night", some 8, 1, "b1"⟩]).sum
          / ((selected_scores [⟨"night", some 8, 1, "b1"⟩]).length : ℚ))) ∧
    round_half_even
        (10 * ((selected_scores [⟨"night", some 8, 1, "b1"⟩]).sum
          / ((selected_scores [⟨"night", some 8, 1, "b1"⟩]).length : ℚ))) ≤ 100 :=
  C5_overall_score_spec "acc-1" 1 [⟨"night", some 8, 1, "b1"⟩] (by decide) (by decide)

/-- C6 counterexample: for the LAPD HHMM source, the time encoding "2400" is
parsed to 23:59:00, not to 23:59:59 as the claim states (the code clamps
hour ≥ 24 to hour 23, minute 59; only the HH:MM:SS branch maps "24:..." to
23:59:59). -/
theorem C6_time_parsing_counterexample :
    parse_time_str "2nrs-mtv8" (some "2400") = "23:59:00" ∧
    parse_time_str "2nrs-mtv8" (some "2400") ≠ "23:59:59" :=
  ⟨by decide, by decide⟩

/-- C6 (amended): for sources with separate date and time fields, the parser
maps "2400" (HHMM sources) to 23:59:00 and "24:00:00" (HH:MM:SS sources) to
23:59:59, and defaults a missing or unparsable time to 12:00:00. -/
theorem C6_time_parsing_amended (d ts : String) (hd : d ≠ "2nrs-mtv8")
    (hts : (splitOnChar ':' ts.toList).length ≠ 3) :
    parse_time_str "2nrs-mtv8" (some "2400") = "23:59:00" ∧
    parse_time_str d (some "24:00:00") = "23:59:59" ∧
    parse_time_str d none = "12:00:00" ∧
    parse_time_str "2nrs-mtv8" none = "12:00:00" ∧
    parse_time_str d (some ts) = "12:00:00" ∧
    parse_time_str "2nrs-mtv8" (some "abcd") = "12:00:00" := by
  refine ⟨by decide, ?_, rfl, rfl, ?_, by decide⟩
  · simp only [parse_time_str]
    rw [if_neg hd]
    decide
  · simp only [parse_time_str]
    rw [if_neg hd, if_neg hts]

/-- Witness for the amended C6 at a non-LAPD source "la" and the unparsable
time string "99". -/
theorem C6_time_parsing_witness :
    parse_time_str "2nrs-mtv8" (some "2400") = "23:59:00" ∧
    parse_time_str "la" (some "24:00:00") = "23:59:59" ∧
    parse_time_str "la" none = "12:00:00" ∧
    parse_time_str "2nrs-mtv8" none = "12:00:00" ∧
    parse_time_str "la" (some "99") = "12:00:00" ∧
    parse_time_str "2nrs-mtv8" (some "abcd") = "12:00:00" :=
  C6_time_parsing_amended "la" "99" (by decide) (by decide)

theorem rpc_chunk_result_length {α β : Type} (c : List α)
    (o : Option (List (Option β))) (h : chunk_ok c o = true) :
    (rpc_chunk_result c o).length = c.length := by
  cases o with
  | none => simp [rpc_chunk_result]
  | some data =>
    simp only [chunk_ok, Bool.and_eq_true, beq_iff_eq] at h
    by_cases hdata : data.isEmpty
    · simp [rpc_chunk_result, hdata]
    · simp only [rpc_chunk_result, hdata, if_false, Bool.false_eq_true]
      exact h.1

theorem rpc_chunk_result_flags {α β : Type} (c : List α)
    (o : Option (List (Option β))) (h : chunk_ok c o = true) :
    ∀ p ∈ (rpc_chunk_result c o).zip (List.replicate c.length o.isNone),
      p.1.isNone = p.2 := by
  intro p hp
  cases o with
  | none =>
    simp only [rpc_chunk_result, Option.isNone_none] at hp
    have h12 := List.of_mem_zip hp
    have h1 := List.eq_of_mem_replicate h12.1
    have h2 := List.eq_of_mem_replicate h12.2
    rw [h1, h2]
    rfl
  | some data =>
    simp only [chunk_ok, Bool.and_eq_true, beq_iff_eq, List.all_eq_true] at h
    simp only [rpc_chunk_result, Option.isNone_some] at hp
    by_cases hdata : data.isEmpty
    · rw [if_pos hdata] at hp
      have hlen0 : c.length = 0 := by
        rw [← h.1]
        exact List.isEmpty_iff_length_eq_zero.mp hdata
      rw [hlen0] at hp
      simp at hp
    · rw [if_neg hdata] at hp
      have h12 := List.of_mem_zip hp
      have h2 := List.eq_of_mem_replicate h12.2
      have h1 := h.2 p.1 h12.1
      cases hx : p.1 with
      | none => rw [hx] at h1; simp at h1
      | some v =>
        rw [h2]
        rfl

/-- C9 counterexample: the claim's consequent fails on the code for
admissible resolver responses.  With a single one-coordinate chunk whose RPC
call succeeds but maps the coordinate to a null match, `None` appears at a
position that does not belong to a failed chunk; and with a successful
response carrying more rows than the chunk has coordinates, the combined
list does not have one entry per input coordinate. -/
theorem C9_chunked_resolution_counterexample :
    (((all_block_data [[0]] rpc_null_match).zip (chunk_flags [[0]] rpc_null_match)).all
        (fun p => !p.1.isNone || p.2) = false) ∧
    (all_block_data [[0]] rpc_extra_rows).length ≠ ([[0]].map List.length).sum :=
  ⟨by decide, by decide⟩

/-- C9 (amended): a chunk whose RPC call raises contributes exactly one None
placeholder per coordinate of that chunk; provided every successful chunk
returns exactly one non-null result per coordinate, the combined result list
has exactly one entry per input coordinate and None appears exactly at the
positions belonging to failed chunks. -/
theorem C9_chunked_resolution_amended {α β : Type} (chunks : List (List α))
    (rpc : List α → Option (List (Option β)))
    (hok : ∀ c ∈ chunks, chunk_ok c (rpc c) = true) :
    (all_block_data chunks rpc).length = (chunks.map List.length).sum ∧
    ((all_block_data chunks rpc).zip (chunk_flags chunks rpc)).all
        (fun p => p.1.isNone == p.2) = true := by
  induction chunks with
  | nil => exact ⟨rfl, rfl⟩
  | cons c cs ih =>
    obtain ⟨ihlen, ihall⟩ := ih (fun x hx => hok x (List.mem_cons_of_mem c hx))
    have hc := hok c (List.mem_cons_self c cs)
    have hseglen := rpc_chunk_result_length c (rpc c) hc
    have hflags := rpc_chunk_result_flags c (rpc c) hc
    constructor
    · simp only [all_block_data, List.length_append, List.map_cons, List.sum_cons,
        hseglen, ihlen]
    · have hzip : (all_block_data (c :: cs) rpc).zip (chunk_flags (c :: cs) rpc)
          = (rpc_chunk_result c (rpc c)).zip (List.replicate c.length (rpc c).isNone)
            ++ (all_block_data cs rpc).zip (chunk_flags cs rpc) := by
        show ((rpc_chunk_result c (rpc c)) ++ all_block_data cs rpc).zip
            (List.replicate c.length (rpc c).isNone ++ chunk_flags cs rpc) = _
        rw [List.zip_append]
        rw [hseglen, List.length_replicate]
      rw [hzip, List.all_append, Bool.and_eq_true]
      refine ⟨?_, ihall⟩
      rw [List.all_eq_true]
      intro p hp
      rw [beq_iff_eq]
      exact hflags p hp

/-- Witness for the amended C9: two chunks, the first resolving successfully
and the second raising. -/
theorem C9_chunked_resolution_witness :
    (all_block_data [[1], [2, 3]] rpc_example).length
      = ([[1], [2, 3]].map List.length).sum ∧
    ((all_block_data [[1], [2, 3]] rpc_example).zip
        (chunk_flags [[1], [2, 3]] rpc_example)).all
        (fun p => p.1.isNone == p.2) = true :=
  C9_chunked_resolution_amended [[1], [2, 3]] rpc_example (by decide)
